import Mathlib

/-!
Shallow embedding of the `loveinthecity` client application:
the login page (`LoginPage.tsx`, `handleLogin`), the messages page
(`MessagesPage.tsx`: `loadConversations`, `handleSendMessage`,
`handleDeleteConversation`), and the root authentication gate and logout
flow of `App.tsx` as documented verbatim in `LOGOUT_CODE_LOGIC.md` and
`DEBUG_SUMMARY.md` (Effect #1, Effect #2, `handleLogout`).

Browser local storage is modelled as an association list from string keys
to stored items; the `StorageManager` wrapper namespaces its keys with the
application prefix `loveinthecity_`.
-/

namespace Loveinthecity

/-- A user session record, as created by `handleLogin` in LoginPage.tsx:
`{ id, phone, isAuthenticated, loginTime, lastActive }`. -/
structure UserSession where
  id : String
  phone : String
  isAuthenticated : Bool
  loginTime : String
  lastActive : Nat
deriving DecidableEq, Repr

/-- A user profile record, as created by `handleLogin` in LoginPage.tsx:
`{ id, name, age, avatar, isVip, following, fans, wallet }`. -/
structure UserProfile where
  id : String
  name : String
  age : Nat
  avatar : String
  isVip : Bool
  following : Nat
  fans : Nat
  wallet : Nat
deriving DecidableEq, Repr

/-- A message record, MessagesPage.tsx `interface Message`. -/
structure Message where
  id : String
  conversationId : String
  senderId : String
  text : String
  timestamp : Nat
  read : Bool
deriving DecidableEq, Repr

/-- A conversation record, MessagesPage.tsx `interface Conversation`. -/
structure Conversation where
  id : String
  userId : String
  userName : String
  userImage : String
  lastMessage : String
  lastMessageTime : Nat
  unreadCount : Nat
  messages : List Message
deriving DecidableEq, Repr

/-- The kinds of values the application writes to browser storage. -/
inductive StoredValue where
  | session (s : UserSession)
  | profile (p : UserProfile)
  | convs (cs : List Conversation)
  | str (s : String)
deriving DecidableEq, Repr

/-- A stored item: the payload together with the optional time-to-live the
`StorageManager.set` envelope records (the test guide shows the stored JSON
as `{"data": ..., ...}` with the TTL alongside the data). -/
structure StoredItem where
  data : StoredValue
  ttl : Option Nat
deriving DecidableEq, Repr

/-- Raw browser local storage: an association list from keys to items. -/
abbrev LocalStore : Type := List (String × StoredItem)

/-- Browser `localStorage.getItem`: first binding of the key, if any. -/
def lsGet (ls : LocalStore) (k : String) : Option StoredItem :=
  (List.find? (fun p => p.1 == k) ls).map Prod.snd

/-- Browser `localStorage.setItem`: overwrite any binding of the key. -/
def lsSet (ls : LocalStore) (k : String) (v : StoredItem) : LocalStore :=
  (k, v) :: List.filter (fun p => p.1 != k) ls

/-- Browser `localStorage.removeItem`. -/
def lsRemove (ls : LocalStore) (k : String) : LocalStore :=
  List.filter (fun p => p.1 != k) ls

/-- The application namespace for storage keys. Modelled from the spec:
"keys are namespaced with an application-specific prefix", which
`LOGOUT_CODE_LOGIC.md` and `DEBUG_SUMMARY.md` pin to the literal string
`loveinthecity_` (e.g. `loveinthecity_userSession`). -/
def nsStr : String := "loveinthecity_"

/-- Whether a raw storage key carries the application namespace. -/
def hasNs (k : String) : Bool := nsStr.isPrefixOf k

/-- Modelled from the spec: `utils/localStorage.ts` (the `StorageManager`
singleton) is not in the sources; the spec describes it as "a thin wrapper
over browser local storage with an in-memory cache and key-prefixing".
`StorageManager.set key value ttl` writes the envelope under the
namespaced key. -/
def smSet (ls : LocalStore) (key : String) (v : StoredValue) (ttl : Option Nat) :
    LocalStore :=
  lsSet ls (nsStr ++ key) ⟨v, ttl⟩

/-- Modelled from the spec: `StorageManager.get key` reads the value stored
under the namespaced key. -/
def smGet (ls : LocalStore) (key : String) : Option StoredValue :=
  (lsGet ls (nsStr ++ key)).map StoredItem.data

/-- Modelled from the spec: `StorageManager.remove key` removes the
namespaced key; `LOGOUT_CODE_LOGIC.md` documents it as a removeItem of
`loveinthecity_userSession` plus a cache delete. -/
def smRemove (ls : LocalStore) (key : String) : LocalStore :=
  lsRemove ls (nsStr ++ key)

/-- Per `LOGOUT_CODE_LOGIC.md`, `storage.clearUserProfile()` calls
`storage.remove("userProfile")`. -/
def smClearUserProfile (ls : LocalStore) : LocalStore :=
  smRemove ls "userProfile"

/-- Per `LOGOUT_CODE_LOGIC.md`, `storage.clear()` iterates all
localStorage keys and removes the ones starting with `loveinthecity_`. -/
def smClear (ls : LocalStore) : LocalStore :=
  List.filter (fun p => !hasNs p.1) ls

/-- The root application state of `AppContent` (App.tsx):
the raw storage, the `isAuthenticated` flag and the `mounted` guard. -/
structure AppState where
  store : LocalStore
  isAuthenticated : Bool
  mounted : Bool
deriving DecidableEq

/-- Initial root state: `useState(false)` for both flags
(`DEBUG_SUMMARY.md`: "Line 35: useState(false) - Start logged out"). -/
def initState (ls : LocalStore) : AppState :=
  { store := ls, isAuthenticated := false, mounted := false }

/-- The handler `handleLogout` from `LOGOUT_CODE_LOGIC.md` lines 134-169:
remove the plain `funloves_token` key, then `storage.remove("userSession")`,
`storage.clearUserProfile()`, `storage.clear()`, then
`setIsAuthenticated(false)`. -/
def handleLogout (s : AppState) : AppState :=
  let ls1 := lsRemove s.store "funloves_token"
  let ls2 := smRemove ls1 "userSession"
  let ls3 := smClearUserProfile ls2
  let ls4 := smClear ls3
  { store := ls4, isAuthenticated := false, mounted := s.mounted }

/-- The observable outcome of a login-form submission (`handleLogin` in
LoginPage.tsx): the inline error message and loading flag the component
ends with, the resulting storage, and whether the `onLogin` callback was
invoked. -/
structure LoginResult where
  error : String
  loading : Bool
  store : LocalStore
  loginCalled : Bool
deriving DecidableEq, Repr

/-- Inline validation message for an empty phone number. -/
def phoneErrorMsg : String := "📱 Please enter your phone number"

/-- Inline validation message for an empty password. -/
def passwordErrorMsg : String := "🔐 Please enter your password"

/-- Generic failure message of the catch-all in `handleLogin`. -/
def loginFailedMsg : String := "❌ Login failed. Please try again."

/-- Source: `const sessionTTL = 24 * 60 * 60 * 1000` (24 hours, in ms). -/
def sessionTTL : Nat := 24 * 60 * 60 * 1000

/-- JavaScript `String.prototype.trim()`: strip leading and trailing
whitespace. Modelled over the character list so that it evaluates by
kernel reduction. -/
def jsTrim (s : String) : String :=
  ⟨((s.data.dropWhile Char.isWhitespace).reverse.dropWhile
      Char.isWhitespace).reverse⟩

/-- The seeded avatar URL of the default profile. -/
def avatarUrl (phone : String) : String :=
  "https://api.dicebear.com/7.x/avataaars/svg?seed=" ++ phone

/-- The default profile `handleLogin` creates when none is stored. -/
def defaultProfile (id : String) (phone : String) : UserProfile :=
  { id := id, name := "User", age := 25, avatar := avatarUrl phone,
    isVip := false, following := 0, fans := 0, wallet := 0 }

/-- The session record `handleLogin` builds. -/
def loginSession (phone newId loginTime : String) (now : Nat) : UserSession :=
  { id := newId, phone := phone, isAuthenticated := true,
    loginTime := loginTime, lastActive := now }

/-- Storage after `storage.set("userSession", userSession, sessionTTL)`. -/
def storeAfterSession (phone newId loginTime : String) (now : Nat)
    (ls : LocalStore) : LocalStore :=
  smSet ls "userSession"
    (StoredValue.session (loginSession phone newId loginTime now))
    (some sessionTTL)

/-- Storage after the session write and the create-default-profile-if-
missing step of `handleLogin`. -/
def loginStore (phone newId loginTime : String) (now : Nat)
    (ls : LocalStore) : LocalStore :=
  match smGet (storeAfterSession phone newId loginTime now ls)
      "userProfile" with
  | some _ => storeAfterSession phone newId loginTime now ls
  | none =>
      smSet (storeAfterSession phone newId loginTime now ls) "userProfile"
        (StoredValue.profile (defaultProfile newId phone)) none

/-- The handler `handleLogin` from LoginPage.tsx. The nondeterministic runtime inputs
are explicit parameters: `newId` is the generated `user_` identifier,
`loginTime` is `new Date().toISOString()`, `now` is `Date.now()`, and
`throws` injects an exception into the simulated-authentication /
session-creation section of the `try` block (the function itself is total:
the `catch` turns the exception into the generic failure message with the
loading flag cleared, so no exception escapes). -/
def handleLogin (phone password : String) (ls : LocalStore)
    (newId loginTime : String) (now : Nat) (throws : Bool) : LoginResult :=
  if jsTrim phone = "" then
    { error := phoneErrorMsg, loading := false, store := ls,
      loginCalled := false }
  else if jsTrim password = "" then
    { error := passwordErrorMsg, loading := false, store := ls,
      loginCalled := false }
  else if throws then
    { error := loginFailedMsg, loading := false, store := ls,
      loginCalled := false }
  else
    { error := "", loading := false,
      store := loginStore phone newId loginTime now ls, loginCalled := true }

/-- JavaScript truthiness of `userSession && userSession.isAuthenticated`
for the value Effect #1 reads back: true only when the stored value is a
session record whose authenticated flag is set. -/
def storedSessionAuth (v : Option StoredValue) : Bool :=
  match v with
  | some (StoredValue.session s) => s.isAuthenticated
  | _ => false

/-- Whether storage holds a valid session under the `userSession` key. -/
def validStoredSession (ls : LocalStore) : Bool :=
  storedSessionAuth (smGet ls "userSession")

/-- Effect #1 of `AppContent` (`LOGOUT_CODE_LOGIC.md` lines 31-53): on
mount, read `userSession`; if a valid session is present, set the
authenticated flag; in every case mark the mount check complete
(`setMounted(true)`, also reached by the catch branch). -/
def effect1 (s : AppState) : AppState :=
  if validStoredSession s.store then
    { s with isAuthenticated := true, mounted := true }
  else
    { s with mounted := true }

/-- The Effect #2 guard (`LOGOUT_CODE_LOGIC.md` lines 81-87):
`mounted && !isAuthenticated`. -/
def effect2Fires (s : AppState) : Bool := s.mounted && !s.isAuthenticated

/-- The route Effect #2 navigates to with replace-style navigation. -/
def loginRoute : String := "/login"

/-- The UI events that update the root state: the on-mount session check
(Effect #1), a completed login (`handleLogin` in App.tsx: store the mock
token and the session, then `setIsAuthenticated(true)`), and a logout
click (`handleLogout`). -/
inductive Event where
  | mountCheck
  | loginComplete (sess : UserSession)
  | logoutClick
deriving DecidableEq, Repr

/-- State update performed by the handler of each event. -/
def applyEvent (s : AppState) : Event → AppState
  | Event.mountCheck => effect1 s
  | Event.loginComplete sess =>
      { store := smSet
          (lsSet s.store "funloves_token"
            ⟨StoredValue.str "mock_jwt_token", none⟩)
          "userSession" (StoredValue.session sess) (some sessionTTL),
        isAuthenticated := true, mounted := s.mounted }
  | Event.logoutClick => handleLogout s

/-- The dependency array of Effect #2, `[isAuthenticated, navigate, mounted]`:
the effect re-runs on a re-render exactly when one of the two flags
changed (`navigate` is referentially stable). -/
def depsChanged (old new : AppState) : Bool :=
  (old.isAuthenticated != new.isAuthenticated) ||
    (old.mounted != new.mounted)

/-- One UI event: the handler / effect updates the state, the re-render
runs Effect #2 when its dependencies changed, and Effect #2 navigates to
the login route when its guard holds. Returns the new state and the
routes navigated to during the event. -/
def step (s : AppState) (e : Event) : AppState × List String :=
  if depsChanged s (applyEvent s e) && effect2Fires (applyEvent s e) then
    (applyEvent s e, [loginRoute])
  else
    (applyEvent s e, [])

/-- Process a list of events, accumulating the navigations in order. -/
def runEvents : AppState → List Event → AppState × List String
  | s, [] => (s, [])
  | s, e :: es =>
    ((runEvents (step s e).1 es).1,
      (step s e).2 ++ (runEvents (step s e).1 es).2)

/-- A run of the root component over a page-load: start at the initial
state, run Effect #2 once for the first render (both effects run on
mount; the first run of Effect #2 sees `mounted = false`), then process the
events. -/
def appRun (ls : LocalStore) (events : List Event) :
    AppState × List String :=
  ((runEvents (initState ls) events).1,
    (if effect2Fires (initState ls) then [loginRoute] else []) ++
      (runEvents (initState ls) events).2)

/-- A mock user from `../constants` (`MOCK_USERS`): the fields the
messages page reads. The constants module is not in the sources, so the
seeding is stated for an arbitrary user list. -/
structure MockUser where
  id : String
  name : String
  images : List String
deriving DecidableEq, Repr

/-- The three seeded messages of a default conversation. -/
def seedMessages (u : MockUser) (now : Nat) : List Message :=
  [{ id := "msg_1", conversationId := "conv_" ++ u.id, senderId := u.id,
     text := "Hi! How are you?", timestamp := now - 300000, read := true },
   { id := "msg_2", conversationId := "conv_" ++ u.id, senderId := "me",
     text := "I\x27m doing great! How about you?",
     timestamp := now - 240000, read := true },
   { id := "msg_3", conversationId := "conv_" ++ u.id, senderId := u.id,
     text := "Great! Would you like to meet up?",
     timestamp := now - 60000, read := false }]

/-- One default conversation (`loadConversations`, MessagesPage.tsx):
the mapped record for user `u` at position `i`. -/
def defaultConversation (now : Nat) (i : Nat) (u : MockUser) :
    Conversation :=
  { id := "conv_" ++ u.id, userId := u.id, userName := u.name,
    userImage := u.images.headD "", lastMessage := "Hi! How are you?",
    lastMessageTime := now - i * 60000,
    unreadCount := if i % 2 = 0 then i else 0,
    messages := seedMessages u now }

/-- Seeding map over `MOCK_USERS` with the `support` user removed and the
list cut to the first five entries. -/
def defaultConversations (users : List MockUser) (now : Nat) :
    List Conversation :=
  (((users.filter (fun u => u.id != "support")).take 5).enum).map
    (fun p => defaultConversation now p.1 p.2)

/-- The state of the messages page: the conversation list, the selected
conversation, the message input box, and the storage it persists to. -/
structure MsgState where
  conversations : List Conversation
  selected : Option Conversation
  messageInput : String
  store : LocalStore
deriving DecidableEq, Repr

/-- The seeding branch of `loadConversations`: build the defaults,
persist them, select the first. -/
def seedState (ls : LocalStore) (users : List MockUser) (now : Nat) :
    MsgState :=
  { conversations := defaultConversations users now,
    selected := (defaultConversations users now).head?,
    messageInput := "",
    store := smSet ls "conversations"
      (StoredValue.convs (defaultConversations users now)) none }

/-- The loader `loadConversations` (MessagesPage.tsx lines 39-91): use the saved
non-empty conversation list if present, otherwise seed the defaults. -/
def loadConversations (ls : LocalStore) (users : List MockUser)
    (now : Nat) : MsgState :=
  match smGet ls "conversations" with
  | some (StoredValue.convs saved) =>
      if saved.length > 0 then
        { conversations := saved, selected := saved.head?,
          messageInput := "", store := ls }
      else seedState ls users now
  | _ => seedState ls users now

/-- The message `handleSendMessage` builds. -/
def sentMessage (sel : Conversation) (input : String) (now : Nat) :
    Message :=
  { id := "msg_" ++ toString now, conversationId := sel.id,
    senderId := "me", text := input, timestamp := now, read := true }

/-- The per-conversation update of `handleSendMessage`: append the new
message to the conversation matching the selected one, leave the rest. -/
def appendSent (input : String) (now : Nat) (sel : Conversation)
    (conv : Conversation) : Conversation :=
  if conv.id = sel.id then
    { conv with
      messages := conv.messages ++ [sentMessage sel input now],
      lastMessage := input, lastMessageTime := now }
  else conv

/-- The handler `handleSendMessage` (MessagesPage.tsx lines 98-131). -/
def handleSendMessage (s : MsgState) (now : Nat) : MsgState :=
  if jsTrim s.messageInput = "" then s
  else
    match s.selected with
    | none => s
    | some sel =>
        { conversations :=
            s.conversations.map (appendSent s.messageInput now sel),
          selected := some { sel with
            messages := sel.messages ++ [sentMessage sel s.messageInput now],
            lastMessage := s.messageInput, lastMessageTime := now },
          messageInput := "",
          store := smSet s.store "conversations"
            (StoredValue.convs
              (s.conversations.map (appendSent s.messageInput now sel)))
            none }

/-- The handler `handleDeleteConversation` (MessagesPage.tsx lines 133-140). -/
def handleDeleteConversation (s : MsgState) (convId : String) : MsgState :=
  { conversations := s.conversations.filter (fun c => c.id != convId),
    selected :=
      if (match s.selected with
          | some sc => sc.id == convId
          | none => false) then
        (s.conversations.filter (fun c => c.id != convId)).head?
      else s.selected,
    messageInput := s.messageInput,
    store := smSet s.store "conversations"
      (StoredValue.convs (s.conversations.filter (fun c => c.id != convId)))
      none }

/-- A conversation is well-formed when every nested message carries the
identifier of the conversation that contains it. -/
def ConvOk (c : Conversation) : Prop :=
  ∀ m ∈ c.messages, m.conversationId = c.id

/-- Every conversation in the list is well-formed. -/
def ConvsOk (cs : List Conversation) : Prop :=
  ∀ c ∈ cs, ConvOk c

instance (c : Conversation) : Decidable (ConvOk c) := by
  unfold ConvOk
  infer_instance

instance (cs : List Conversation) : Decidable (ConvsOk cs) := by
  unfold ConvsOk ConvOk
  infer_instance

end Loveinthecity

namespace Loveinthecity

/-- Filtering only removes entries. -/
theorem mem_of_mem_filter_pairs {p : String × StoredItem}
    {f : String × StoredItem → Bool} {ls : List (String × StoredItem)}
    (h : p ∈ List.filter f ls) : p ∈ ls :=
  (List.mem_filter.mp h).1

end Loveinthecity

namespace Loveinthecity

/-- C1: after `handleLogout`, every key still present in storage neither
carries the application namespace `loveinthecity_` nor is the unprefixed
mock token key `funloves_token`. -/
theorem C1_logout_clears_storage (s : AppState) (k : String) (it : StoredItem)
    (hmem : (k, it) ∈ (handleLogout s).store) :
    hasNs k = false ∧ k ≠ "funloves_token" := by
  unfold handleLogout smClear smClearUserProfile smRemove lsRemove at hmem
  simp only at hmem
  have h4 := List.mem_filter.mp hmem
  have h3 := List.mem_filter.mp h4.1
  have h2 := List.mem_filter.mp h3.1
  have h1 := List.mem_filter.mp h2.1
  refine ⟨?_, ?_⟩
  · have := h4.2
    simpa using this
  · have := h1.2
    simpa using this

/-- Witness for C1 at a concrete populated store. -/
theorem C1_logout_clears_storage_witness :
    hasNs "other_app_key" = false ∧ "other_app_key" ≠ "funloves_token" :=
  C1_logout_clears_storage
    (initState [("loveinthecity_userSession",
                  ⟨StoredValue.str "sess", some 1000⟩),
                ("funloves_token", ⟨StoredValue.str "mock_jwt_token", none⟩),
                ("other_app_key", ⟨StoredValue.str "keep", none⟩)])
    "other_app_key" ⟨StoredValue.str "keep", none⟩ (by decide)

/-- Searching with `find?` is unchanged by filtering with a predicate that holds wherever
the searched-for predicate does. -/
theorem find?_filter_of_imp {α : Type} (p q : α → Bool) (l : List α)
    (h : ∀ x, p x = true → q x = true) :
    List.find? p (List.filter q l) = List.find? p l := by
  induction l with
  | nil => rfl
  | cons a l ih =>
    by_cases hq : q a = true
    · by_cases hp : p a = true
      · simp [List.filter_cons, hq, List.find?_cons, hp]
      · simp [List.filter_cons, hq, List.find?_cons, hp, ih]
    · have hp : p a = false := by
        cases hpa : p a with
        | true => exact absurd (h a hpa) hq
        | false => rfl
      simp [List.filter_cons, hq, List.find?_cons, hp, ih]

/-- Reading back the key just written. -/
theorem lsGet_lsSet_same (ls : LocalStore) (k : String) (v : StoredItem) :
    lsGet (lsSet ls k v) k = some v := by
  simp [lsGet, lsSet, List.find?_cons]

/-- Writing one key leaves reads of a different key unchanged. -/
theorem lsGet_lsSet_other (ls : LocalStore) (k k' : String) (v : StoredItem)
    (h : k' ≠ k) : lsGet (lsSet ls k v) k' = lsGet ls k' := by
  unfold lsGet lsSet
  rw [List.find?_cons_of_neg _ (by simp [h.symm])]
  rw [find?_filter_of_imp]
  intro x hx
  have : x.1 = k' := by simpa using hx
  simp [this, h]

/-- Writing with `StorageManager.set` on one logical key leaves `smGet` of another
logical key unchanged, provided the namespaced keys differ. -/
theorem smGet_smSet_other (ls : LocalStore) (k k' : String) (v : StoredValue)
    (ttl : Option Nat) (h : nsStr ++ k' ≠ nsStr ++ k) :
    smGet (smSet ls k v ttl) k' = smGet ls k' := by
  unfold smGet smSet
  rw [lsGet_lsSet_other _ _ _ _ h]

/-- C3: whenever the phone number or the password is empty after trimming,
`handleLogin` surfaces one of the two inline validation messages, clears
the loading flag, leaves storage untouched, and does not invoke `onLogin`
— regardless of whether the authentication path would have thrown. -/
theorem C3_empty_field_validation (phone password : String) (ls : LocalStore)
    (newId loginTime : String) (now : Nat) (throws : Bool)
    (h : jsTrim phone = "" ∨ jsTrim password = "") :
    ((handleLogin phone password ls newId loginTime now throws).error
        = phoneErrorMsg ∨
      (handleLogin phone password ls newId loginTime now throws).error
        = passwordErrorMsg) ∧
    (handleLogin phone password ls newId loginTime now throws).loading
        = false ∧
    (handleLogin phone password ls newId loginTime now throws).store = ls ∧
    (handleLogin phone password ls newId loginTime now throws).loginCalled
        = false := by
  unfold handleLogin
  by_cases hp : jsTrim phone = ""
  · simp [hp]
  · have hq : jsTrim password = "" := h.resolve_left hp
    simp [hp, hq]

/-- Witness for C3: submitting a whitespace-only phone number. -/
theorem C3_empty_field_validation_witness :
    ((handleLogin "   " "pw" [] "user_1" "t0" 0 false).error = phoneErrorMsg ∨
      (handleLogin "   " "pw" [] "user_1" "t0" 0 false).error
        = passwordErrorMsg) ∧
    (handleLogin "   " "pw" [] "user_1" "t0" 0 false).loading = false ∧
    (handleLogin "   " "pw" [] "user_1" "t0" 0 false).store = [] ∧
    (handleLogin "   " "pw" [] "user_1" "t0" 0 false).loginCalled = false :=
  C3_empty_field_validation "   " "pw" [] "user_1" "t0" 0 false
    (Or.inl (by decide))

/-- Reading with `StorageManager.get` the logical key just set. -/
theorem smGet_smSet_same (ls : LocalStore) (k : String) (v : StoredValue)
    (ttl : Option Nat) : smGet (smSet ls k v ttl) k = some v := by
  unfold smGet smSet
  rw [lsGet_lsSet_same]
  rfl

/-- After the login store updates, the namespaced session key holds the
new session envelope, whether or not a profile already existed. -/
theorem lsGet_loginStore_session (phone newId loginTime : String) (now : Nat)
    (ls : LocalStore) :
    lsGet (loginStore phone newId loginTime now ls) (nsStr ++ "userSession")
      = some ⟨StoredValue.session (loginSession phone newId loginTime now),
              some sessionTTL⟩ := by
  have hkey : nsStr ++ "userSession" ≠ nsStr ++ "userProfile" := by decide
  unfold loginStore
  rcases hcase : smGet (storeAfterSession phone newId loginTime now ls)
      "userProfile" with _ | p
  · simp only [hcase]
    simp only [smSet, storeAfterSession]
    rw [lsGet_lsSet_other _ _ _ _ hkey, lsGet_lsSet_same]
  · simp only [hcase]
    simp only [storeAfterSession, smSet]
    rw [lsGet_lsSet_same]

/-- C4: every successful login (non-empty trimmed phone and password, no
exception) persists under the namespaced key `loveinthecity_userSession` a
session record with the generated identifier, the submitted phone number,
the authenticated flag set to true, the login timestamp, the last-active
timestamp, and the 24-hour time-to-live in the storage envelope, and then
invokes the `onLogin` callback. -/
theorem C4_login_creates_session (phone password : String) (ls : LocalStore)
    (newId loginTime : String) (now : Nat)
    (hp : jsTrim phone ≠ "") (hq : jsTrim password ≠ "") :
    lsGet (handleLogin phone password ls newId loginTime now false).store
        (nsStr ++ "userSession") =
      some ⟨StoredValue.session
              { id := newId, phone := phone, isAuthenticated := true,
                loginTime := loginTime, lastActive := now },
            some sessionTTL⟩ ∧
    (handleLogin phone password ls newId loginTime now false).loginCalled
        = true := by
  rw [handleLogin, if_neg hp, if_neg hq, if_neg (by simp : ¬ (false = true))]
  exact ⟨lsGet_loginStore_session phone newId loginTime now ls, rfl⟩

/-- Witness for C4 at a concrete submission. -/
theorem C4_login_creates_session_witness :
    lsGet (handleLogin "5551234" "pw" [] "user_abc" "t0" 42 false).store
        (nsStr ++ "userSession") =
      some ⟨StoredValue.session
              { id := "user_abc", phone := "5551234",
                isAuthenticated := true, loginTime := "t0",
                lastActive := 42 },
            some sessionTTL⟩ ∧
    (handleLogin "5551234" "pw" [] "user_abc" "t0" 42 false).loginCalled
        = true :=
  C4_login_creates_session "5551234" "pw" [] "user_abc" "t0" 42
    (by decide) (by decide)

/-- C5: on successful login, a missing profile is replaced by the default
profile whose identifier is the identifier of the new session, and an existing
profile is left exactly as it was. -/
theorem C5_login_default_profile (phone password : String) (ls : LocalStore)
    (newId loginTime : String) (now : Nat)
    (hp : jsTrim phone ≠ "") (hq : jsTrim password ≠ "") :
    (smGet ls "userProfile" = none →
      smGet (handleLogin phone password ls newId loginTime now false).store
          "userProfile"
        = some (StoredValue.profile (defaultProfile newId phone))) ∧
    (∀ p, smGet ls "userProfile" = some p →
      smGet (handleLogin phone password ls newId loginTime now false).store
          "userProfile" = some p) := by
  rw [handleLogin, if_neg hp, if_neg hq, if_neg (by simp : ¬ (false = true))]
  have hkeyP : nsStr ++ "userProfile" ≠ nsStr ++ "userSession" := by decide
  have hsame : smGet (storeAfterSession phone newId loginTime now ls)
      "userProfile" = smGet ls "userProfile" := by
    unfold storeAfterSession
    exact smGet_smSet_other _ _ _ _ _ hkeyP
  constructor
  · intro hnone
    unfold loginStore
    rw [hsame, hnone]
    exact smGet_smSet_same _ _ _ _
  · intro p hp'
    unfold loginStore
    rw [hsame, hp']
    exact hsame.trans hp'

/-- Witness for C5: with empty storage, login creates the default profile. -/
theorem C5_login_default_profile_witness :
    smGet (handleLogin "5551234" "pw" [] "user_abc" "t0" 42 false).store
        "userProfile"
      = some (StoredValue.profile (defaultProfile "user_abc" "5551234")) :=
  (C5_login_default_profile "5551234" "pw" [] "user_abc" "t0" 42
    (by decide) (by decide)).1 (by decide)

/-- C7: when the authentication / session-creation path throws (after
validation passed), `handleLogin` catches the exception, surfaces the
generic failure message, and clears the loading flag; the embedded handler
is a total function, so no exception propagates out of it. -/
theorem C7_login_catch_all (phone password : String) (ls : LocalStore)
    (newId loginTime : String) (now : Nat)
    (hp : jsTrim phone ≠ "") (hq : jsTrim password ≠ "") :
    (handleLogin phone password ls newId loginTime now true).error
        = loginFailedMsg ∧
    (handleLogin phone password ls newId loginTime now true).loading
        = false := by
  unfold handleLogin
  simp [hp, hq]

/-- Witness for C7 at a concrete throwing submission. -/
theorem C7_login_catch_all_witness :
    (handleLogin "5551234" "pw" [] "user_abc" "t0" 42 true).error
        = loginFailedMsg ∧
    (handleLogin "5551234" "pw" [] "user_abc" "t0" 42 true).loading
        = false :=
  C7_login_catch_all "5551234" "pw" [] "user_abc" "t0" 42
    (by decide) (by decide)

end Loveinthecity

namespace Loveinthecity

/-- No event handler unsets `mounted`. -/
theorem applyEvent_mounted_mono (s : AppState) (e : Event)
    (h : s.mounted = true) : (applyEvent s e).mounted = true := by
  cases e with
  | mountCheck =>
      simp only [applyEvent, effect1]
      split <;> rfl
  | loginComplete sess => simpa [applyEvent] using h
  | logoutClick => simpa [applyEvent, handleLogout] using h

/-- The state resulting from a step is the update of its event handler. -/
theorem step_fst (s : AppState) (e : Event) :
    (step s e).1 = applyEvent s e := by
  unfold step
  split <;> rfl

/-- The flag `mounted` stays set along any run. -/
theorem runEvents_mounted_mono (s : AppState) (es : List Event)
    (h : s.mounted = true) : (runEvents s es).1.mounted = true := by
  induction es generalizing s with
  | nil => simpa [runEvents] using h
  | cons e es ih =>
      simp only [runEvents]
      exact ih _ (by rw [step_fst]; exact applyEvent_mounted_mono s e h)

/-- A run that never completed the mount check navigates nowhere. -/
theorem runEvents_no_nav_unmounted (s : AppState) (es : List Event)
    (h : (runEvents s es).1.mounted = false) : (runEvents s es).2 = [] := by
  induction es generalizing s with
  | nil => simp [runEvents]
  | cons e es ih =>
      simp only [runEvents] at h ⊢
      have hs' : (step s e).1.mounted = false := by
        cases hb : (step s e).1.mounted with
        | false => rfl
        | true =>
            rw [runEvents_mounted_mono _ es hb] at h
            cases h
      have hstep : (step s e).2 = [] := by
        by_cases hc : (depsChanged s (applyEvent s e) &&
            effect2Fires (applyEvent s e)) = true
        · simp only [Bool.and_eq_true, effect2Fires] at hc
          have hmt : (applyEvent s e).mounted = true := hc.2.1
          rw [step_fst, hmt] at hs'
          cases hs'
        · unfold step
          rw [if_neg hc]
      rw [hstep, ih _ h]
      rfl

/-- Once a run ends unauthenticated after mount, a login navigation was
issued during the run, unless the run already began in that state. -/
theorem runEvents_login_issued (s : AppState) (es : List Event)
    (hm : (runEvents s es).1.mounted = true)
    (ha : (runEvents s es).1.isAuthenticated = false) :
    loginRoute ∈ (runEvents s es).2 ∨
      (s.mounted = true ∧ s.isAuthenticated = false) := by
  induction es generalizing s with
  | nil =>
      simp only [runEvents] at hm ha
      exact Or.inr ⟨hm, ha⟩
  | cons e es ih =>
      simp only [runEvents] at hm ha ⊢
      rcases ih _ hm ha with hmem | ⟨hm', ha'⟩
      · exact Or.inl (List.mem_append.mpr (Or.inr hmem))
      · rw [step_fst] at hm' ha'
        by_cases hd : depsChanged s (applyEvent s e) = true
        · have hfire : effect2Fires (applyEvent s e) = true := by
            unfold effect2Fires
            rw [hm', ha']
            rfl
          have hout : (step s e).2 = [loginRoute] := by
            unfold step
            rw [if_pos (by rw [hd, hfire]; rfl)]
          refine Or.inl (List.mem_append.mpr (Or.inl ?_))
          rw [hout]
          exact List.mem_singleton.mpr rfl
        · have hdf : depsChanged s (applyEvent s e) = false := by
            cases hb : depsChanged s (applyEvent s e) with
            | false => rfl
            | true => exact absurd hb hd
          unfold depsChanged at hdf
          rcases Bool.or_eq_false_iff.mp hdf with ⟨hba, hbm⟩
          have hea : s.isAuthenticated = (applyEvent s e).isAuthenticated := by
            simpa using hba
          have hem : s.mounted = (applyEvent s e).mounted := by
            simpa using hbm
          exact Or.inr ⟨hem.trans hm', hea.trans ha'⟩

/-- C2: over any run of the root component, (a) if the mount check never
completed, no navigation to the login route was issued; (b) whenever the
run ends mounted and unauthenticated, a navigation to the login route was
issued during the run; and (c) any single event that flips the
authenticated flag from true to false in a mounted state issues the login
navigation in that very step. -/
theorem C2_redirect_gate (ls : LocalStore) (es : List Event) :
    ((appRun ls es).1.mounted = false → (appRun ls es).2 = []) ∧
    ((appRun ls es).1.mounted = true →
      (appRun ls es).1.isAuthenticated = false →
      loginRoute ∈ (appRun ls es).2) ∧
    (∀ s e, s.mounted = true → s.isAuthenticated = true →
      (applyEvent s e).isAuthenticated = false →
      (step s e).2 = [loginRoute]) := by
  have hfire0 : effect2Fires (initState ls) = false := rfl
  refine ⟨?_, ?_, ?_⟩
  · intro h
    unfold appRun at h ⊢
    rw [hfire0]
    simp only [if_false, List.nil_append, Bool.false_eq_true]
    exact runEvents_no_nav_unmounted _ _ h
  · intro hm ha
    unfold appRun at hm ha ⊢
    rw [hfire0]
    simp only [if_false, List.nil_append, Bool.false_eq_true]
    rcases runEvents_login_issued (initState ls) es hm ha with hmem | ⟨hm0, _⟩
    · exact hmem
    · exact absurd hm0 (by simp [initState])
  · intro s e hm hat hnew
    have hd : depsChanged s (applyEvent s e) = true := by
      unfold depsChanged
      rw [hat, hnew]
      rfl
    have hmt : (applyEvent s e).mounted = true := applyEvent_mounted_mono s e hm
    have hfire : effect2Fires (applyEvent s e) = true := by
      unfold effect2Fires
      rw [hmt, hnew]
      rfl
    unfold step
    rw [if_pos (by rw [hd, hfire]; rfl)]

/-- Witness for C2: an empty-storage page load redirects after the mount
check; an eventless run navigates nowhere; a logout from a mounted,
authenticated state issues the login navigation in its own step. -/
theorem C2_redirect_gate_witness :
    (appRun [] ([] : List Event)).2 = [] ∧
    loginRoute ∈ (appRun [] [Event.mountCheck]).2 ∧
    (step ⟨[], true, true⟩ Event.logoutClick).2 = [loginRoute] :=
  ⟨(C2_redirect_gate [] []).1 (by decide),
   (C2_redirect_gate [] [Event.mountCheck]).2.1 (by decide) (by decide),
   (C2_redirect_gate [] []).2.2 ⟨[], true, true⟩ Event.logoutClick
     rfl rfl (by decide)⟩

/-- C6: after the initial mount check, the authenticated flag equals the
presence of a valid stored session (a session record stored under
`userSession` whose authenticated flag is set), and the mount is marked
complete — so a valid stored session survives a page reload as an
authenticated state, and an absent or invalid one leaves the flag false. -/
theorem C6_mount_check_auth (ls : LocalStore) :
    (applyEvent (initState ls) Event.mountCheck).isAuthenticated
        = validStoredSession ls ∧
    (applyEvent (initState ls) Event.mountCheck).mounted = true := by
  unfold applyEvent effect1 initState
  by_cases h : validStoredSession ls = true
  · simp [h]
  · have hf : validStoredSession ls = false := by
      cases hb : validStoredSession ls with
      | false => rfl
      | true => exact absurd hb h
    simp [hf]

end Loveinthecity

namespace Loveinthecity

/-- C8: a send with non-blank input and a selected conversation appends
exactly one message — sender `me`, read, text equal to the input,
conversation identifier equal to that of the selected conversation — to every
position holding the identifier of the selected conversation, updates its
`lastMessage`/`lastMessageTime`, persists the updated list, clears the
input, and leaves every conversation with a different identifier
unchanged; a blank input or an empty selection leaves the whole state
(conversations and storage included) unchanged. -/
theorem C8_send_message (s : MsgState) (now : Nat) (sel : Conversation)
    (hne : jsTrim s.messageInput ≠ "") (hsel : s.selected = some sel) :
    (handleSendMessage s now).conversations.length
        = s.conversations.length ∧
    (∀ i c, s.conversations.get? i = some c → c.id ≠ sel.id →
      (handleSendMessage s now).conversations.get? i = some c) ∧
    (∀ i c, s.conversations.get? i = some c → c.id = sel.id →
      (handleSendMessage s now).conversations.get? i = some
        { c with
          messages := c.messages ++ [sentMessage sel s.messageInput now],
          lastMessage := s.messageInput, lastMessageTime := now }) ∧
    smGet (handleSendMessage s now).store "conversations"
      = some (StoredValue.convs (handleSendMessage s now).conversations) ∧
    (handleSendMessage s now).messageInput = "" ∧
    ((sentMessage sel s.messageInput now).senderId = "me" ∧
      (sentMessage sel s.messageInput now).read = true ∧
      (sentMessage sel s.messageInput now).text = s.messageInput ∧
      (sentMessage sel s.messageInput now).conversationId = sel.id) ∧
    (∀ (t : MsgState) (m : Nat),
      jsTrim t.messageInput = "" ∨ t.selected = none →
      handleSendMessage t m = t) := by
  have hR : handleSendMessage s now =
      { conversations :=
          s.conversations.map (appendSent s.messageInput now sel),
        selected := some { sel with
          messages := sel.messages ++ [sentMessage sel s.messageInput now],
          lastMessage := s.messageInput, lastMessageTime := now },
        messageInput := "",
        store := smSet s.store "conversations"
          (StoredValue.convs
            (s.conversations.map (appendSent s.messageInput now sel)))
          none } := by
    unfold handleSendMessage
    rw [if_neg hne, hsel]
  rw [hR]
  refine ⟨List.length_map _ _, ?_, ?_, smGet_smSet_same _ _ _ _, rfl,
    ⟨rfl, rfl, rfl, rfl⟩, ?_⟩
  · intro i c hc hid
    rw [List.get?_map, hc]
    simp only [Option.map_some']
    unfold appendSent
    rw [if_neg hid]
  · intro i c hc hid
    rw [List.get?_map, hc]
    simp only [Option.map_some']
    unfold appendSent
    rw [if_pos hid]
  · intro t m hmix
    unfold handleSendMessage
    rcases hmix with h | h
    · rw [if_pos h]
    · by_cases ht : jsTrim t.messageInput = ""
      · rw [if_pos ht]
      · rw [if_neg ht, h]

/-- Witness for C8: sending "hello" into a selected conversation with no
prior messages appends exactly that message at its position. -/
theorem C8_send_message_witness :
    (handleSendMessage
        ⟨[⟨"conv_u1", "u1", "Alice", "img", "hi", 0, 0, []⟩],
         some ⟨"conv_u1", "u1", "Alice", "img", "hi", 0, 0, []⟩,
         "hello", []⟩ 7).conversations.get? 0 = some
      { (⟨"conv_u1", "u1", "Alice", "img", "hi", 0, 0, []⟩ : Conversation)
        with
        messages := [] ++
          [sentMessage
            ⟨"conv_u1", "u1", "Alice", "img", "hi", 0, 0, []⟩ "hello" 7],
        lastMessage := "hello", lastMessageTime := 7 } :=
  (C8_send_message
      ⟨[⟨"conv_u1", "u1", "Alice", "img", "hi", 0, 0, []⟩],
       some ⟨"conv_u1", "u1", "Alice", "img", "hi", 0, 0, []⟩,
       "hello", []⟩ 7
      ⟨"conv_u1", "u1", "Alice", "img", "hi", 0, 0, []⟩
      (by decide) rfl).2.2.1 0
    ⟨"conv_u1", "u1", "Alice", "img", "hi", 0, 0, []⟩ rfl rfl

/-- C9: deleting a conversation removes exactly the conversations whose
identifier equals the argument, persists the filtered list, and moves the
selection to the first remaining conversation (or none) exactly when the
deleted conversation was the selected one. -/
theorem C9_delete_conversation (s : MsgState) (convId : String) :
    (∀ c, c ∈ (handleDeleteConversation s convId).conversations ↔
        c ∈ s.conversations ∧ c.id ≠ convId) ∧
    smGet (handleDeleteConversation s convId).store "conversations"
      = some (StoredValue.convs
          (handleDeleteConversation s convId).conversations) ∧
    (∀ sc, s.selected = some sc → sc.id = convId →
      (handleDeleteConversation s convId).selected
        = (handleDeleteConversation s convId).conversations.head?) ∧
    (∀ sc, s.selected = some sc → sc.id ≠ convId →
      (handleDeleteConversation s convId).selected = s.selected) ∧
    (s.selected = none →
      (handleDeleteConversation s convId).selected = none) := by
  refine ⟨?_, ?_, ?_, ?_, ?_⟩
  · intro c
    unfold handleDeleteConversation
    simp [List.mem_filter]
  · unfold handleDeleteConversation
    exact smGet_smSet_same _ _ _ _
  · intro sc hsel hid
    unfold handleDeleteConversation
    rw [hsel]
    simp [hid]
  · intro sc hsel hid
    unfold handleDeleteConversation
    rw [hsel]
    simp [hid]
  · intro hnone
    unfold handleDeleteConversation
    rw [hnone]
    rfl

/-- Witness for C9: deleting the selected of two conversations moves the
selection to the head of the filtered list. -/
theorem C9_delete_conversation_witness :
    (handleDeleteConversation
        ⟨[⟨"conv_a", "a", "A", "i", "m", 0, 0, []⟩,
          ⟨"conv_b", "b", "B", "i", "m", 0, 0, []⟩],
         some ⟨"conv_a", "a", "A", "i", "m", 0, 0, []⟩, "", []⟩
        "conv_a").selected
      = (handleDeleteConversation
          ⟨[⟨"conv_a", "a", "A", "i", "m", 0, 0, []⟩,
            ⟨"conv_b", "b", "B", "i", "m", 0, 0, []⟩],
           some ⟨"conv_a", "a", "A", "i", "m", 0, 0, []⟩, "", []⟩
          "conv_a").conversations.head? :=
  (C9_delete_conversation
      ⟨[⟨"conv_a", "a", "A", "i", "m", 0, 0, []⟩,
        ⟨"conv_b", "b", "B", "i", "m", 0, 0, []⟩],
       some ⟨"conv_a", "a", "A", "i", "m", 0, 0, []⟩, "", []⟩
      "conv_a").2.2.1
    ⟨"conv_a", "a", "A", "i", "m", 0, 0, []⟩ rfl rfl

/-- C10: the messages-page operations preserve the invariant that every
nested message carries the identifier of its containing conversation: the
default seeding satisfies it outright, and both sending a message and
deleting a conversation preserve it. -/
theorem C10_conversation_id_invariant (users : List MockUser) (now : Nat)
    (s : MsgState) (n2 : Nat) (convId : String) :
    ConvsOk (defaultConversations users now) ∧
    (ConvsOk s.conversations →
      ConvsOk (handleSendMessage s n2).conversations) ∧
    (ConvsOk s.conversations →
      ConvsOk (handleDeleteConversation s convId).conversations) := by
  refine ⟨?_, ?_, ?_⟩
  · intro c hc m hm
    rcases List.mem_map.mp hc with ⟨p, hp, rfl⟩
    simp only [defaultConversation, seedMessages, List.mem_cons,
      List.mem_singleton, List.not_mem_nil, or_false] at hm
    rcases hm with rfl | rfl | rfl <;> rfl
  · intro hok
    unfold handleSendMessage
    by_cases ht : jsTrim s.messageInput = ""
    · rw [if_pos ht]
      exact hok
    · rw [if_neg ht]
      rcases hsel : s.selected with _ | sel
      · exact hok
      · intro c hc m hm
        rcases List.mem_map.mp hc with ⟨c0, hc0, rfl⟩
        unfold appendSent at hm ⊢
        by_cases hid : c0.id = sel.id
        · rw [if_pos hid] at hm ⊢
          rcases List.mem_append.mp hm with hA | hB
          · exact hok c0 hc0 m hA
          · have hmB : m = sentMessage sel s.messageInput n2 := by
              simpa using hB
            rw [hmB]
            exact hid.symm
        · rw [if_neg hid] at hm ⊢
          exact hok c0 hc0 m hm
  · intro hok c hc
    unfold handleDeleteConversation at hc
    exact hok c (List.mem_filter.mp hc).1

/-- Witness for C10: the preservation clauses applied to a concrete
well-formed one-conversation state. -/
theorem C10_conversation_id_invariant_witness :
    ConvsOk (handleSendMessage
      ⟨[⟨"conv_u1", "u1", "Alice", "img", "hi", 0, 0,
          [⟨"msg_1", "conv_u1", "u1", "hi", 0, true⟩]⟩],
       some ⟨"conv_u1", "u1", "Alice", "img", "hi", 0, 0,
          [⟨"msg_1", "conv_u1", "u1", "hi", 0, true⟩]⟩,
       "hello", []⟩ 7).conversations :=
  (C10_conversation_id_invariant [] 0
      ⟨[⟨"conv_u1", "u1", "Alice", "img", "hi", 0, 0,
          [⟨"msg_1", "conv_u1", "u1", "hi", 0, true⟩]⟩],
       some ⟨"conv_u1", "u1", "Alice", "img", "hi", 0, 0,
          [⟨"msg_1", "conv_u1", "u1", "hi", 0, true⟩]⟩,
       "hello", []⟩ 7 "x").2.1 (by decide)

end Loveinthecity
